import Mathlib

/-!
Verification of the Animation Sampling and Frame Assembly Engine of
svg2gif-converter (src/svg2gif-converter.py), as described in spec.md.

The numeric core of the program is shallowly embedded here:

* Python float values carrying times in seconds are modelled as rationals.
* The Python builtin int() (truncation toward zero) is modelled by pyInt.
* Code that can raise (the division by animation_duration inside the
  frame-progress computation) returns an Option, with none standing for the
  raised ZeroDivisionError.
* Images are grids of integer RGB pixels (lists of rows of pixel triples).
-/

namespace SvgToGif

/-- Truncation toward zero on rationals: the behaviour of the Python builtin
int() on a float value. -/
def pyInt (q : ℚ) : ℤ := if q < 0 then -⌊-q⌋ else ⌊q⌋

/-- The numeric fields of the dataclass ConversionSettings
(src/svg2gif-converter.py lines 27 to 38). The file-path fields and the debug
flag are omitted: they do not enter any computation modelled here. All times
are in seconds. -/
structure ConversionSettings where
  fps : ℤ
  animation_duration : ℚ
  fade_in_duration : ℚ
  fade_out_duration : ℚ
  start_delay : ℚ
  end_delay : ℚ
deriving DecidableEq

/-- total_time as computed inside ConversionSettings.frame_count,
ConversionSettings.frame_duration_ms and the capture loop. -/
def total_time (s : ConversionSettings) : ℚ :=
  s.animation_duration + s.start_delay + s.end_delay

/-- ConversionSettings.frame_count (src/svg2gif-converter.py lines 40 to 44):
max(10, int(total_time * fps)). -/
def frame_count (s : ConversionSettings) : ℤ :=
  max 10 (pyInt (total_time s * (s.fps : ℚ)))

/-- ConversionSettings.frame_duration_ms (src/svg2gif-converter.py lines 46
to 54): max(50, int((total_time * 1000) / frame_count)). -/
def frame_duration_ms (s : ConversionSettings) : ℤ :=
  max 50 (pyInt (total_time s * 1000 / (frame_count s : ℚ)))

/-- The per-frame progress computation of the capture loop in
ConversionModel.convert_svg_to_gif (src/svg2gif-converter.py lines 429 to
443) at frame index i. The result is none exactly when Python would raise
ZeroDivisionError in the taken branch. -/
def frameProgress (s : ConversionSettings) (i : ℕ) : Option ℚ :=
  let time_per_frame := total_time s / (frame_count s : ℚ)
  let current_time := (i : ℚ) * time_per_frame
  if current_time < s.start_delay then some 0
  else if current_time < s.start_delay + s.animation_duration then
    if s.animation_duration = 0 then none
    else some ((current_time - s.start_delay) / s.animation_duration)
  else some 1

/-- An RGB pixel with integer channels, as read and written through the
pixel access object of the image library. -/
abbrev Pixel := ℤ × ℤ × ℤ

/-- An image: a list of pixel rows. -/
abbrev Img := List (List Pixel)

/-- The width of an image (the length of its first row). -/
def width (img : Img) : ℕ := (img.headD []).length

/-- The height of an image (its number of rows). -/
def height (img : Img) : ℕ := img.length

/-- Apply f to the last element of a list, if any. -/
def mapLast (f : α → α) : List α → List α
  | [] => []
  | [a] => [f a]
  | a :: b :: rest => a :: mapLast f (b :: rest)

/-- Map with the element index, starting from k: the shape of the Python
loops `for i, frame in enumerate(frames)`. -/
def mapIdxFrom (f : ℕ → α → β) : ℕ → List α → List β
  | _, [] => []
  | k, a :: as => f k a :: mapIdxFrom f (k + 1) as

/-- The bottom-right pixel of an image, if the image is nonempty. -/
def lastPixel (img : Img) : Option Pixel :=
  img.getLast?.bind List.getLast?

/-- The anti-collapse nudge applied to frame i in the assembly loop of
ConversionModel.convert_svg_to_gif (src/svg2gif-converter.py lines 506 to
512): when the image is wider and taller than one pixel, the blue channel of
the bottom-right pixel is replaced by (b + i) mod 256. -/
def nudge (i : ℕ) (img : Img) : Img :=
  if 1 < width img ∧ 1 < height img then
    mapLast (mapLast (fun p : Pixel => (p.1, p.2.1, (p.2.2 + (i : ℤ)).emod 256))) img
  else img

/-- One pixel of the fade blend toward the white background
(src/svg2gif-converter.py lines 629 to 636):
int(c * opacity + 255 * (1 - opacity)) on each channel. -/
def blendPixel (opacity : ℚ) (p : Pixel) : Pixel :=
  (pyInt ((p.1 : ℚ) * opacity + 255 * (1 - opacity)),
   pyInt ((p.2.1 : ℚ) * opacity + 255 * (1 - opacity)),
   pyInt ((p.2.2 : ℚ) * opacity + 255 * (1 - opacity)))

/-- The opacity computed for frame index i by
ConversionModel._apply_fade_effect (src/svg2gif-converter.py lines 602 to
620), with total_frames the length of the image list. The two ramp divisions
are reached only when their divisor is positive, so the division-by-zero
convention of ℚ is never exercised on a reachable path. -/
def opacityAt (s : ConversionSettings) (total_frames : ℕ) (i : ℕ) : ℚ :=
  let start_delay_frames : ℤ := pyInt (s.start_delay * (s.fps : ℚ))
  let fade_in_frames : ℤ := pyInt (s.fade_in_duration * (s.fps : ℚ))
  let fade_out_frames : ℤ := pyInt (s.fade_out_duration * (s.fps : ℚ))
  let end_delay_frames : ℤ := pyInt (s.end_delay * (s.fps : ℚ))
  if (i : ℤ) < start_delay_frames then 0
  else if (i : ℤ) < start_delay_frames + fade_in_frames then
    ((i : ℚ) - (start_delay_frames : ℚ)) / (fade_in_frames : ℚ)
  else if (total_frames : ℤ) - end_delay_frames ≤ (i : ℤ) then 0
  else if (total_frames : ℤ) - end_delay_frames - fade_out_frames ≤ (i : ℤ) then
    1 - ((i : ℚ) - ((total_frames : ℚ) - (end_delay_frames : ℚ) - (fade_out_frames : ℚ))) /
      (fade_out_frames : ℚ)
  else 1

/-- The treatment of one frame by ConversionModel._apply_fade_effect: frames
with opacity below 1 are blended toward white per pixel, the others pass
through unchanged. -/
def fadeFrame (s : ConversionSettings) (total_frames i : ℕ) (img : Img) : Img :=
  if opacityAt s total_frames i < 1 then img.map (List.map (blendPixel (opacityAt s total_frames i)))
  else img

/-- ConversionModel._apply_fade_effect (src/svg2gif-converter.py lines 590 to
642) over a list of RGB images. -/
def apply_fade_effect (images : List Img) (s : ConversionSettings) : List Img :=
  mapIdxFrom (fadeFrame s images.length) 0 images

/-- The frame-assembly stage of ConversionModel.convert_svg_to_gif
(src/svg2gif-converter.py lines 488 to 519) on the already-decoded RGB
captures: each frame gets the anti-collapse nudge, then, exactly when a
fade-in or a fade-out is configured, the fade compositor runs over the nudged
list. (The bounding-box crop and the RGBA flattening that precede the nudge
act on the decoded screenshot and are treated as part of producing the RGB
capture.) -/
def assembleFrames (s : ConversionSettings) (captures : List Img) : List Img :=
  let images := mapIdxFrom nudge 0 captures
  if 0 < s.fade_in_duration ∨ 0 < s.fade_out_duration then apply_fade_effect images s
  else images

/-- Replacing every pixel of an image by opaque white, the effect of blending
with opacity 0. -/
def whiteOut (img : Img) : Img :=
  img.map (List.map (fun _ => ((255 : ℤ), (255 : ℤ), (255 : ℤ))))

/-- A concrete 2 x 2 capture used in the image-pipeline examples. -/
def smallFrame : Img := [[(0, 0, 0), (0, 0, 0)], [(0, 0, 0), (0, 0, 5)]]

/-- Settings with a fade-in of 0.1 s and a lead-in of 0.2 s at 10 fps, used
to exercise the fade path of the assembly stage. -/
def fadeDemoSettings : ConversionSettings := ⟨10, 1, 1/10, 0, 1/5, 0⟩

/-- Four bit-identical captures handed to the assembly stage. -/
def identicalCaptures : List Img := [smallFrame, smallFrame, smallFrame, smallFrame]

/-- Settings with fade_in = 0, a fade-out of 1 s, a lead-in of 2 s at 1 fps,
used to exercise the compositor with an empty fade-in window. -/
def steadySettings : ConversionSettings := ⟨1, 5, 0, 1, 2, 0⟩

/-- Eight captures handed to the compositor in the claim_C6 witness. -/
def steadyImages : List Img :=
  [smallFrame, smallFrame, smallFrame, smallFrame, smallFrame, smallFrame, smallFrame, smallFrame]

/-- The regex matches that ConversionModel.detect_animation_info extracts
from the markup text (src/svg2gif-converter.py lines 78 to 145): CSS
animation durations with their unit, animation-delay values with their unit,
bare-decimal animation-delay values (digit value and digit count from the
pattern matching a leading decimal point, so (45, 2) stands for .45), and
SMIL dur attribute values. The Bool is true when the matched unit is ms.
Empty or malformed markup yields empty match lists. -/
structure SvgMatches where
  cssDurations : List (ℚ × Bool)
  cssDelays : List (ℚ × Bool)
  cssDelaysDecimal : List (ℕ × ℕ)
  smilDurs : List (ℚ × Bool)
deriving DecidableEq

/-- Normalisation of a matched value to seconds: a value in milliseconds is
divided by 1000. -/
def normUnit (p : ℚ × Bool) : ℚ := if p.2 then p.1 / 1000 else p.1

/-- ConversionModel.detect_animation_info (src/svg2gif-converter.py lines 69
to 157) on the extracted matches: the maximum detected CSS duration plus the
maximum detected delay, raised again by the maximum SMIL duration through
max, with fallback 1.0 when the total is zero; the flag records whether any
delay pattern matched. The embedded function is total: no path raises. -/
def detect_animation_info (m : SvgMatches) : ℚ × Bool :=
  let base_duration := m.cssDurations.foldl (fun acc p => max acc (normUnit p)) 0
  let delay1 := m.cssDelays.foldl (fun acc p => max acc (normUnit p)) 0
  let max_delay := m.cssDelaysDecimal.foldl
    (fun acc p => max acc ((p.1 : ℚ) / 10 ^ p.2)) delay1
  let has_delays := !m.cssDelays.isEmpty || !m.cssDelaysDecimal.isEmpty
  let total1 := base_duration + max_delay
  let total2 := m.smilDurs.foldl (fun acc p => max acc (normUnit p)) total1
  (if total2 = 0 then 1 else total2, has_delays)

/-- The input-file kinds distinguished by
ConversionModel.calculate_optimal_settings: an SVG with its extracted timing
matches, a GIF with its per-frame duration metadata in milliseconds, or a
file with any other extension. -/
inductive InputFile
  | svg (m : SvgMatches)
  | gif (durations : List ℤ)
  | other
deriving DecidableEq

/-- ConversionModel.get_gif_info (src/svg2gif-converter.py lines 159 to
179): total duration in seconds, frame count, and frames per second derived
from the per-frame duration metadata of a GIF. -/
def get_gif_info (durations : List ℤ) : ℚ × ℕ × ℚ :=
  let total_duration := durations.sum
  let duration_seconds := (total_duration : ℚ) / 1000
  let fps := if 0 < duration_seconds then (durations.length : ℚ) / duration_seconds else 0
  (duration_seconds, durations.length, fps)

/-- ConversionModel.calculate_optimal_settings (src/svg2gif-converter.py
lines 181 to 202): a GIF input gets length and rate from its own metadata,
an SVG input gets the detected length with the fixed default of 20 fps, and
any other extension (like the read-failure path) gets the constant pair
(1.65 s, 20 fps). -/
def calculate_optimal_settings : InputFile → ℚ × ℤ
  | InputFile.gif durations =>
    let info := get_gif_info durations
    (info.1, if 0 < info.2.2 then pyInt info.2.2 else 20)
  | InputFile.svg m => ((detect_animation_info m).1, 20)
  | InputFile.other => (33/20, 20)

/-- ConversionView._on_fps_changed (src/svg2gif-converter.py lines 841 to
856): the manually entered frame rate is clamped into [5, 30]; an unparsable
entry (none) is reset to the default 20. -/
def on_fps_changed (entry : Option ℤ) : ℤ :=
  match entry with
  | none => 20
  | some v => if v < 5 then 5 else if 30 < v then 30 else v

/-- The frame rate stored by ConversionView._auto_configure
(src/svg2gif-converter.py lines 1001 to 1018): int() of the rate returned by
calculate_optimal_settings, applied with no clamping. -/
def auto_configure_fps (f : InputFile) : ℤ := (calculate_optimal_settings f).2

/-- GIF metadata of ten frames of 10 ms each: 0.1 s of content, for a
metadata-derived rate of 100 fps. -/
def gifTenFastFrames : List ℤ := [10, 10, 10, 10, 10, 10, 10, 10, 10, 10]

/-- A markup input carrying the staggered-start motif: one repeated
animation family with a 2 s duration and three staggered delays. -/
def motifA : SvgMatches := ⟨[(2, false)], [(1/5, false), (2/5, false), (3/5, false)], [], []⟩

/-- A second staggered-start motif input, with doubled timings. -/
def motifB : SvgMatches := ⟨[(4, false)], [(2/5, false), (4/5, false), (6/5, false)], [], []⟩

/-- The externally visible events of one conversion run, in order. -/
inductive Event
  | openSession
  | setProgress (i : ℕ)
  | captureFrame (i : ℕ)
  | closeSession
  | saveGif
  | notifyError
  | notifySuccess
deriving DecidableEq

/-- The capture loop of ConversionModel.convert_svg_to_gif
(src/svg2gif-converter.py lines 425 to 473) starting at frame index k with n
frames to go: each iteration sets the animation progress and captures a
screenshot; when the capture of frame failAt raises, the loop stops there
and the exception propagates. -/
def captureEvents (failAt : Option ℕ) : ℕ → ℕ → List Event
  | _, 0 => []
  | k, n + 1 =>
    if failAt = some k then [Event.setProgress k]
    else Event.setProgress k :: Event.captureFrame k :: captureEvents failAt (k + 1) n

/-- Whether the capture loop finishes with no raised capture. -/
def captureOk (failAt : Option ℕ) : ℕ → ℕ → Bool
  | _, 0 => true
  | k, n + 1 => if failAt = some k then false else captureOk failAt (k + 1) n

/-- The event trace of ConversionModel.convert_svg_to_gif
(src/svg2gif-converter.py lines 204 to 588) for a run of fc frames in which
the capture of frame failAt (if any) raises: the browser session is opened,
the capture loop runs, and then either driver.quit() at line 482 followed by
the GIF save and the success notification on the success path, or the except
branch at line 583 reports the error. The source has no finally clause or
context manager closing the session, so no closeSession event is emitted on
the error path. -/
def convertRun (fc : ℕ) (failAt : Option ℕ) : List Event :=
  Event.openSession ::
    (captureEvents failAt 0 fc ++
      (if captureOk failAt 0 fc then [Event.closeSession, Event.saveGif, Event.notifySuccess]
       else [Event.notifyError]))

theorem pyInt_of_nonneg {q : ℚ} (h : 0 ≤ q) : pyInt q = ⌊q⌋ := by
  rw [pyInt, if_neg (not_lt.mpr h)]

theorem pyInt_eq_of (z : ℤ) {q : ℚ} (h0 : 0 ≤ z) (h1 : (z : ℚ) ≤ q)
    (h2 : q < (z : ℚ) + 1) : pyInt q = z := by
  have hq : 0 ≤ q := le_trans (by exact_mod_cast h0) h1
  rw [pyInt_of_nonneg hq]
  exact Int.floor_eq_iff.mpr ⟨h1, by exact_mod_cast h2⟩

theorem pyInt_mono {a b : ℚ} (ha : 0 ≤ a) (hab : a ≤ b) : pyInt a ≤ pyInt b := by
  rw [pyInt_of_nonneg ha, pyInt_of_nonneg (ha.trans hab)]
  exact Int.floor_le_floor hab

theorem ten_le_frame_count (s : ConversionSettings) : 10 ≤ frame_count s :=
  le_max_left _ _

/-- C2: for specs with nonnegative durations and frame rate, frame_count is
max(10, floor(total_time * fps)); it is at least 10, monotone when total_time
and fps both do not decrease, and the scenario length 0.2 s at 20 fps gives
frame_count 10. -/
theorem claim_C2 (s t : ConversionSettings)
    (hd : 0 ≤ s.animation_duration) (hs : 0 ≤ s.start_delay)
    (he : 0 ≤ s.end_delay) (hf : 0 ≤ s.fps)
    (htt : total_time s ≤ total_time t) (hff : s.fps ≤ t.fps) :
    frame_count s = max 10 ⌊total_time s * (s.fps : ℚ)⌋ ∧
    10 ≤ frame_count s ∧
    frame_count s ≤ frame_count t ∧
    frame_count ⟨20, 1/5, 0, 0, 0, 0⟩ = 10 := by
  have htot : 0 ≤ total_time s := add_nonneg (add_nonneg hd hs) he
  have hfq : (0 : ℚ) ≤ (s.fps : ℚ) := by exact_mod_cast hf
  refine ⟨?_, ten_le_frame_count s, ?_, ?_⟩
  · rw [frame_count, pyInt_of_nonneg (mul_nonneg htot hfq)]
  · have hprod : total_time s * (s.fps : ℚ) ≤ total_time t * (t.fps : ℚ) := by
      have hfq2 : ((s.fps : ℚ)) ≤ ((t.fps : ℚ)) := by exact_mod_cast hff
      exact mul_le_mul htt hfq2 hfq (htot.trans htt)
    exact max_le_max le_rfl (pyInt_mono (mul_nonneg htot hfq) hprod)
  · have h4 : total_time (⟨20, 1/5, 0, 0, 0, 0⟩ : ConversionSettings) * ((20 : ℤ) : ℚ) = 4 := by
      norm_num [total_time]
    rw [frame_count, h4, pyInt_eq_of 4 (by norm_num) (by norm_num) (by norm_num)]
    decide

/-- Witness for claim_C2 at a concrete spec. -/
theorem claim_C2_witness :
    frame_count ⟨20, 1, 0, 0, 0, 0⟩ =
      max 10 ⌊total_time ⟨20, 1, 0, 0, 0, 0⟩ * (((⟨20, 1, 0, 0, 0, 0⟩ : ConversionSettings).fps : ℤ) : ℚ)⌋ ∧
    10 ≤ frame_count ⟨20, 1, 0, 0, 0, 0⟩ ∧
    frame_count ⟨20, 1, 0, 0, 0, 0⟩ ≤ frame_count ⟨20, 1, 0, 0, 0, 0⟩ ∧
    frame_count ⟨20, 1/5, 0, 0, 0, 0⟩ = 10 :=
  claim_C2 ⟨20, 1, 0, 0, 0, 0⟩ ⟨20, 1, 0, 0, 0, 0⟩ (by decide) (by decide)
    (by decide) (by decide) le_rfl le_rfl

/-- C1 counterexample: at length 1 s, 20 fps, no lead-in and no lead-out, the
final frame (index 19 of 20) has progress 19/20, not 1.0: the code never pins
the last active-phase frame to 1. -/
theorem claim_C1_counterexample :
    frameProgress ⟨20, 1, 0, 0, 0, 0⟩ 19 = some (19/20) ∧ (19/20 : ℚ) ≠ 1 := by
  have hfc : frame_count ⟨20, 1, 0, 0, 0, 0⟩ = 20 := by
    have h20 : total_time (⟨20, 1, 0, 0, 0, 0⟩ : ConversionSettings) * ((20 : ℤ) : ℚ) = 20 := by
      norm_num [total_time]
    rw [frame_count, h20, pyInt_eq_of 20 (by norm_num) (by norm_num) (by norm_num)]
    decide
  constructor
  · simp only [frameProgress, hfc]
    norm_num [total_time]
  · norm_num

/-- C1 amended: with lead_out = 0 and length > 0, the progress of the final
frame of the schedule is strictly below 1: it is the raw linear value
(t - lead_in) / length, or 0 while t is still inside the lead-in window; no
pinning to 1.0 takes place. -/
theorem claim_C1 (s : ConversionSettings) (hend : s.end_delay = 0)
    (hd : 0 < s.animation_duration) (hs : 0 ≤ s.start_delay) :
    ∃ p, frameProgress s ((frame_count s).toNat - 1) = some p ∧ p < 1 := by
  have hfc10 : 10 ≤ frame_count s := ten_le_frame_count s
  have hfc0 : (0 : ℤ) ≤ frame_count s := by linarith
  have hfcq : (0 : ℚ) < ((frame_count s : ℤ) : ℚ) := by exact_mod_cast (by linarith : (0:ℤ) < frame_count s)
  have htot : 0 < total_time s := by
    rw [total_time, hend, add_zero]
    exact add_pos_of_pos_of_nonneg hd hs
  have hidx : (((frame_count s).toNat - 1 : ℕ) : ℚ) = ((frame_count s : ℤ) : ℚ) - 1 := by
    have h1 : (1 : ℕ) ≤ (frame_count s).toNat := by omega
    have h2 : (((frame_count s).toNat : ℤ)) = frame_count s := Int.toNat_of_nonneg hfc0
    push_cast [h1]
    rw [show (((frame_count s).toNat : ℚ)) = (((frame_count s).toNat : ℤ) : ℚ) by push_cast; ring, h2]
  have hcur : (((frame_count s).toNat - 1 : ℕ) : ℚ) * (total_time s / ((frame_count s : ℤ) : ℚ)) <
      total_time s := by
    rw [hidx]
    have hkey : (((frame_count s : ℤ) : ℚ) - 1) * (total_time s / ((frame_count s : ℤ) : ℚ)) =
        total_time s - total_time s / ((frame_count s : ℤ) : ℚ) := by
      field_simp
      ring
    rw [hkey]
    have : 0 < total_time s / ((frame_count s : ℤ) : ℚ) := div_pos htot hfcq
    linarith
  simp only [frameProgress]
  split_ifs with hc hq hz
  · exact ⟨0, rfl, by norm_num⟩
  · exact absurd hz hd.ne'
  · refine ⟨_, rfl, ?_⟩
    rw [div_lt_one hd, sub_lt_iff_lt_add']
    calc (((frame_count s).toNat - 1 : ℕ) : ℚ) * (total_time s / ((frame_count s : ℤ) : ℚ))
        < total_time s := hcur
      _ = s.start_delay + s.animation_duration := by rw [total_time, hend, add_zero]; ring
  · exfalso
    apply hq
    calc (((frame_count s).toNat - 1 : ℕ) : ℚ) * (total_time s / ((frame_count s : ℤ) : ℚ))
        < total_time s := hcur
      _ = s.start_delay + s.animation_duration := by rw [total_time, hend, add_zero]; ring

/-- Witness for claim_C1 at a concrete spec. -/
theorem claim_C1_witness :
    ∃ p, frameProgress ⟨20, 1, 0, 0, 0, 0⟩ ((frame_count ⟨20, 1, 0, 0, 0, 0⟩).toNat - 1) = some p ∧
      p < 1 :=
  claim_C1 ⟨20, 1, 0, 0, 0, 0⟩ rfl (by decide) (by decide)

/-- C3 counterexample: at length 1.99 s, 10 fps, frame_count is 19 and the code
computes int(1990 / 19) = 104 ms, while rounding to the nearest millisecond as
the claim states would give 105 ms. -/
theorem claim_C3_counterexample :
    frame_duration_ms ⟨10, 199/100, 0, 0, 0, 0⟩ = 104 ∧
    max 50 (round (total_time ⟨10, 199/100, 0, 0, 0, 0⟩ * 1000 /
      ((frame_count ⟨10, 199/100, 0, 0, 0, 0⟩ : ℤ) : ℚ))) = 105 ∧
    (104 : ℤ) ≠ 105 := by
  have hfc : frame_count ⟨10, 199/100, 0, 0, 0, 0⟩ = 19 := by
    have h199 : total_time (⟨10, 199/100, 0, 0, 0, 0⟩ : ConversionSettings) * ((10 : ℤ) : ℚ) =
        199/10 := by norm_num [total_time]
    rw [frame_count, h199, pyInt_eq_of 19 (by norm_num) (by norm_num) (by norm_num)]
    decide
  have hq : total_time (⟨10, 199/100, 0, 0, 0, 0⟩ : ConversionSettings) * 1000 /
      ((frame_count ⟨10, 199/100, 0, 0, 0, 0⟩ : ℤ) : ℚ) = 1990/19 := by
    rw [hfc]
    norm_num [total_time]
  refine ⟨?_, ?_, by norm_num⟩
  · rw [frame_duration_ms, hq, pyInt_eq_of 104 (by norm_num) (by norm_num) (by norm_num)]
    decide
  · rw [hq, round_eq, show (1990/19 : ℚ) + 1/2 = 3999/38 by norm_num,
      Int.floor_eq_iff.mpr (by constructor <;> norm_num : ((105 : ℤ) : ℚ) ≤ 3999/38 ∧ (3999/38 : ℚ) < (105 : ℤ) + 1)]
    decide

/-- C3 amended: the per-frame display duration is
max(50, trunc(total_time * 1000 / frame_count)) milliseconds, truncated (the
floor, for these nonnegative quantities), not rounded to nearest; it is always
at least 50, and the scenario length 1 s, 20 fps, no delays still gives 50. -/
theorem claim_C3 (s : ConversionSettings) (hd : 0 ≤ s.animation_duration)
    (hs : 0 ≤ s.start_delay) (he : 0 ≤ s.end_delay) :
    frame_duration_ms s = max 50 ⌊total_time s * 1000 / ((frame_count s : ℤ) : ℚ)⌋ ∧
    50 ≤ frame_duration_ms s ∧
    frame_duration_ms ⟨20, 1, 0, 0, 0, 0⟩ = 50 := by
  have htot : 0 ≤ total_time s := add_nonneg (add_nonneg hd hs) he
  have hfcq : (0 : ℚ) < ((frame_count s : ℤ) : ℚ) := by
    exact_mod_cast (by linarith [ten_le_frame_count s] : (0:ℤ) < frame_count s)
  refine ⟨?_, le_max_left _ _, ?_⟩
  · rw [frame_duration_ms, pyInt_of_nonneg (div_nonneg (by linarith) hfcq.le)]
  · have hfc : frame_count ⟨20, 1, 0, 0, 0, 0⟩ = 20 := by
      have h20 : total_time (⟨20, 1, 0, 0, 0, 0⟩ : ConversionSettings) * ((20 : ℤ) : ℚ) = 20 := by
        norm_num [total_time]
      rw [frame_count, h20, pyInt_eq_of 20 (by norm_num) (by norm_num) (by norm_num)]
      decide
    have h50 : total_time (⟨20, 1, 0, 0, 0, 0⟩ : ConversionSettings) * 1000 /
        ((frame_count ⟨20, 1, 0, 0, 0, 0⟩ : ℤ) : ℚ) = 50 := by
      rw [hfc]
      norm_num [total_time]
    rw [frame_duration_ms, h50, pyInt_eq_of 50 (by norm_num) (by norm_num) (by norm_num)]
    decide

/-- Witness for claim_C3 at a concrete spec. -/
theorem claim_C3_witness :
    frame_duration_ms ⟨10, 3, 0, 0, 0, 0⟩ =
      max 50 ⌊total_time ⟨10, 3, 0, 0, 0, 0⟩ * 1000 / ((frame_count ⟨10, 3, 0, 0, 0, 0⟩ : ℤ) : ℚ)⌋ ∧
    50 ≤ frame_duration_ms ⟨10, 3, 0, 0, 0, 0⟩ ∧
    frame_duration_ms ⟨20, 1, 0, 0, 0, 0⟩ = 50 :=
  claim_C3 ⟨10, 3, 0, 0, 0, 0⟩ (by decide) (by decide) (by decide)

/-- C4 counterexample: a run with length 0, no lead-in and a 1 s lead-out has
progress 1.0 already at frame 0, not progress 0 throughout: once t is past the
(empty) lead-in window the code takes the else branch and holds 1.0. -/
theorem claim_C4_counterexample :
    frameProgress ⟨10, 0, 0, 0, 0, 1⟩ 0 = some 1 ∧ some (1 : ℚ) ≠ some (0 : ℚ) := by
  have hfc : frame_count ⟨10, 0, 0, 0, 0, 1⟩ = 10 := by
    have h10 : total_time (⟨10, 0, 0, 0, 0, 1⟩ : ConversionSettings) * ((10 : ℤ) : ℚ) = 10 := by
      norm_num [total_time]
    rw [frame_count, h10, pyInt_eq_of 10 (by norm_num) (by norm_num) (by norm_num)]
    decide
  constructor
  · simp only [frameProgress, hfc]
    norm_num [total_time]
  · norm_num

/-- C4 amended: with length = 0 the per-frame progress computation never
raises a division error (the branch containing the division by length is
unreachable); each frame whose sample time lies inside the lead-in window gets
progress 0 and every other frame gets progress 1. -/
theorem claim_C4 (s : ConversionSettings) (hd : s.animation_duration = 0) (i : ℕ) :
    frameProgress s i =
      some (if (i : ℚ) * (total_time s / ((frame_count s : ℤ) : ℚ)) < s.start_delay
        then 0 else 1) := by
  simp only [frameProgress]
  by_cases hc : (i : ℚ) * (total_time s / ((frame_count s : ℤ) : ℚ)) < s.start_delay
  · rw [if_pos hc, if_pos hc]
  · rw [if_neg hc, if_neg hc, if_neg]
    rw [hd, add_zero]
    exact hc

/-- Witness for claim_C4 at a concrete run with length 0. -/
theorem claim_C4_witness :
    frameProgress ⟨10, 0, 0, 0, 0, 1⟩ 0 =
      some (if (0 : ℚ) * (total_time ⟨10, 0, 0, 0, 0, 1⟩ /
        ((frame_count ⟨10, 0, 0, 0, 0, 1⟩ : ℤ) : ℚ)) < (⟨10, 0, 0, 0, 0, 1⟩ : ConversionSettings).start_delay
        then 0 else 1) :=
  claim_C4 ⟨10, 0, 0, 0, 0, 1⟩ rfl 0

theorem pyInt_nonneg {q : ℚ} (h : 0 ≤ q) : 0 ≤ pyInt q := by
  rw [pyInt_of_nonneg h]
  exact Int.floor_nonneg.mpr h

theorem pyInt_zero : pyInt (0 : ℚ) = 0 :=
  pyInt_eq_of 0 le_rfl (by norm_num) (by norm_num)

theorem pyInt_one : pyInt (1 : ℚ) = 1 :=
  pyInt_eq_of 1 (by norm_num) (by norm_num) (by norm_num)

theorem pyInt_two : pyInt (2 : ℚ) = 2 :=
  pyInt_eq_of 2 (by norm_num) (by norm_num) (by norm_num)

theorem pyInt_255 : pyInt (255 : ℚ) = 255 :=
  pyInt_eq_of 255 (by norm_num) (by norm_num) (by norm_num)

theorem mapIdxFrom_length (f : ℕ → α → β) (k : ℕ) (l : List α) :
    (mapIdxFrom f k l).length = l.length := by
  induction l generalizing k with
  | nil => rfl
  | cons a as ih => simp [mapIdxFrom, ih]

theorem mapIdxFrom_getElem? (f : ℕ → α → β) (k : ℕ) (l : List α) (i : ℕ) :
    (mapIdxFrom f k l)[i]? = (l[i]?).map (f (k + i)) := by
  induction l generalizing k i with
  | nil => simp [mapIdxFrom]
  | cons a as ih =>
    cases i with
    | zero => simp [mapIdxFrom]
    | succ n =>
      simp only [mapIdxFrom, List.getElem?_cons_succ]
      rw [show k + (n + 1) = k + 1 + n by omega]
      exact ih (k + 1) n

theorem getElem?_replicate_of_lt {a : α} {n i : ℕ} (h : i < n) :
    (List.replicate n a)[i]? = some a := by
  induction n generalizing i with
  | zero => omega
  | succ m ih =>
    cases i with
    | zero => rw [List.replicate_succ, List.getElem?_cons_zero]
    | succ j =>
      rw [List.replicate_succ, List.getElem?_cons_succ]
      exact ih (by omega)

theorem mapLast_cons_cons (f : α → α) (a b : α) (l : List α) :
    mapLast f (a :: b :: l) = a :: mapLast f (b :: l) := rfl

theorem getLast?_mapLast (f : α → α) (l : List α) :
    (mapLast f l).getLast? = l.getLast?.map f := by
  induction l with
  | nil => rfl
  | cons a as ih =>
    cases as with
    | nil => rfl
    | cons b bs =>
      obtain ⟨c, cs, hc⟩ : ∃ c cs, mapLast f (b :: bs) = c :: cs := by
        cases bs with
        | nil => exact ⟨f b, [], rfl⟩
        | cons d ds => exact ⟨b, mapLast f (d :: ds), rfl⟩
      rw [mapLast_cons_cons, hc, List.getLast?_cons_cons, ← hc, ih, List.getLast?_cons_cons]

theorem map_mapLast (f : α → β) (g : α → α) (hfg : ∀ a, f (g a) = f a) :
    ∀ l : List α, (mapLast g l).map f = l.map f
  | [] => rfl
  | [a] => by simp [mapLast, hfg]
  | a :: b :: rest => by
    rw [mapLast_cons_cons, List.map_cons, List.map_cons, map_mapLast f g hfg (b :: rest)]

theorem whiteOut_nudge (j : ℕ) (img : Img) : whiteOut (nudge j img) = whiteOut img := by
  rw [nudge]
  split_ifs with h
  · rw [whiteOut, whiteOut]
    exact map_mapLast (List.map (fun _ : Pixel => ((255 : ℤ), (255 : ℤ), (255 : ℤ))))
      (mapLast (fun p : Pixel => (p.1, p.2.1, (p.2.2 + (j : ℤ)).emod 256)))
      (fun row => map_mapLast (fun _ : Pixel => ((255 : ℤ), (255 : ℤ), (255 : ℤ)))
        (fun p : Pixel => (p.1, p.2.1, (p.2.2 + (j : ℤ)).emod 256)) (fun p => rfl) row) img
  · rfl

theorem lastPixel_nudge (j : ℕ) (img : Img) (hw : 1 < width img) (hh : 1 < height img) :
    lastPixel (nudge j img) =
      (lastPixel img).map (fun p : Pixel => (p.1, p.2.1, (p.2.2 + (j : ℤ)).emod 256)) := by
  rw [nudge, if_pos ⟨hw, hh⟩, lastPixel, lastPixel, getLast?_mapLast]
  cases himg : img.getLast? with
  | none => rfl
  | some r => simp [getLast?_mapLast]

theorem lastPixel_isSome (img : Img) (hw : 1 < width img) (hh : 1 < height img)
    (hrect : ∀ row ∈ img, row.length = width img) : ∃ p, lastPixel img = some p := by
  have himg : img ≠ [] := by
    intro hnil
    rw [height, hnil] at hh
    simp at hh
  have hr : img.getLast? = some (img.getLast himg) :=
    List.getLast?_eq_getLast_of_ne_nil himg
  have hrmem : img.getLast himg ∈ img := List.getLast_mem himg
  have hrlen : (img.getLast himg).length = width img := hrect _ hrmem
  have hrne : img.getLast himg ≠ [] := by
    intro hnil
    rw [hnil] at hrlen
    simp at hrlen
    omega
  have hp : (img.getLast himg).getLast? = some ((img.getLast himg).getLast hrne) :=
    List.getLast?_eq_getLast_of_ne_nil hrne
  exact ⟨(img.getLast himg).getLast hrne, by simp [lastPixel, hr, hp]⟩

theorem emod_256_succ_ne (x : ℤ) : x.emod 256 ≠ (x + 1).emod 256 := by
  intro h
  have hdvd : (256 : ℤ) ∣ (x + 1) - x := Int.ModEq.dvd h
  rw [show (x + 1) - x = 1 by ring] at hdvd
  have := Int.le_of_dvd one_pos hdvd
  omega

theorem blendPixel_zero (p : Pixel) : blendPixel 0 p = (255, 255, 255) := by
  rw [blendPixel, show ((p.1 : ℚ)) * 0 + 255 * (1 - 0) = 255 by ring,
    show ((p.2.1 : ℚ)) * 0 + 255 * (1 - 0) = 255 by ring,
    show ((p.2.2 : ℚ)) * 0 + 255 * (1 - 0) = 255 by ring, pyInt_255]

theorem fadeFrame_of_opacity_zero {s : ConversionSettings} {tf i : ℕ}
    (h : opacityAt s tf i = 0) (img : Img) : fadeFrame s tf i img = whiteOut img := by
  rw [fadeFrame, h, if_pos (by norm_num : (0 : ℚ) < 1), whiteOut,
    show blendPixel 0 = fun _ : Pixel => ((255 : ℤ), (255 : ℤ), (255 : ℤ)) from funext blendPixel_zero]

/-- C5 counterexample: with a fade-in of 0.1 s and a lead-in of 0.2 s at
10 fps, four bit-identical 2 x 2 captures produce an output whose frames 0
and 1 are identical all-white images: the fade runs after the nudge and
blends both fully to the background, so adjacent encoded frames can coincide
despite the nudge. -/
theorem claim_C5_counterexample :
    (assembleFrames fadeDemoSettings identicalCaptures)[0]? =
      (assembleFrames fadeDemoSettings identicalCaptures)[1]? ∧
    ((assembleFrames fadeDemoSettings identicalCaptures)[0]?).isSome = true := by
  have hcond : 0 < fadeDemoSettings.fade_in_duration ∨ 0 < fadeDemoSettings.fade_out_duration :=
    Or.inl (by norm_num [fadeDemoSettings])
  have hsdf : pyInt (fadeDemoSettings.start_delay * ((fadeDemoSettings.fps : ℤ) : ℚ)) = 2 := by
    rw [show fadeDemoSettings.start_delay * ((fadeDemoSettings.fps : ℤ) : ℚ) = 2 by
      norm_num [fadeDemoSettings]]
    exact pyInt_two
  have hlen : (mapIdxFrom nudge 0 identicalCaptures).length = 4 := by
    rw [mapIdxFrom_length]
    rfl
  have hop : ∀ i : ℕ, (i : ℤ) < 2 → opacityAt fadeDemoSettings 4 i = 0 := by
    intro i hi
    simp only [opacityAt]
    rw [hsdf, if_pos hi]
  have hcap : ∀ i : ℕ, i < 4 → identicalCaptures[i]? = some smallFrame := by
    intro i hi
    interval_cases i <;> rfl
  constructor
  · simp only [assembleFrames]
    rw [if_pos hcond, apply_fade_effect, hlen, mapIdxFrom_getElem?, mapIdxFrom_getElem?,
      mapIdxFrom_getElem?, mapIdxFrom_getElem?, hcap 0 (by omega), hcap 1 (by omega)]
    simp only [Nat.zero_add, Option.map_some']
    rw [fadeFrame_of_opacity_zero (hop 0 (by omega)), fadeFrame_of_opacity_zero (hop 1 (by omega)),
      whiteOut_nudge, whiteOut_nudge]
  · simp only [assembleFrames]
    rw [if_pos hcond, apply_fade_effect, hlen, mapIdxFrom_getElem?, mapIdxFrom_getElem?,
      hcap 0 (by omega)]
    rfl

/-- C5 amended: adjacent output frames are guaranteed distinct by the nudge
when the captures are bit-identical, the frames are wider and taller than one
pixel, and no fade window is configured (the fade stage, which runs after the
nudge, can otherwise blend adjacent frames to the same image, and a one-pixel
wide or tall frame is never nudged). -/
theorem claim_C5 (s : ConversionSettings) (F : Img) (n i : ℕ)
    (hfi : s.fade_in_duration = 0) (hfo : s.fade_out_duration = 0)
    (hw : 1 < width F) (hh : 1 < height F)
    (hrect : ∀ row ∈ F, row.length = width F)
    (hi : i + 1 < n) :
    (assembleFrames s (List.replicate n F))[i]? ≠
      (assembleFrames s (List.replicate n F))[i + 1]? := by
  have hcond : ¬ (0 < s.fade_in_duration ∨ 0 < s.fade_out_duration) := by
    rw [hfi, hfo]
    simp
  simp only [assembleFrames]
  rw [if_neg hcond, mapIdxFrom_getElem?, mapIdxFrom_getElem?,
    getElem?_replicate_of_lt (by omega : i < n), getElem?_replicate_of_lt hi]
  simp only [Nat.zero_add, Option.map_some']
  intro hcontra
  have heq : nudge i F = nudge (i + 1) F := Option.some.inj hcontra
  obtain ⟨p, hp⟩ := lastPixel_isSome F hw hh hrect
  have e1 := lastPixel_nudge i F hw hh
  have e2 := lastPixel_nudge (i + 1) F hw hh
  have key := (e1.symm.trans ((congrArg lastPixel heq).trans e2))
  rw [hp] at key
  simp only [Option.map_some'] at key
  have h3 : (p.2.2 + (i : ℤ)).emod 256 = (p.2.2 + (((i + 1 : ℕ)) : ℤ)).emod 256 :=
    congrArg (fun q : Pixel => q.2.2) (Option.some.inj key)
  apply emod_256_succ_ne (p.2.2 + (i : ℤ))
  rw [h3]
  congr 1
  push_cast
  ring

/-- Witness for claim_C5 at concrete bit-identical captures with no fade. -/
theorem claim_C5_witness :
    (assembleFrames ⟨10, 1, 0, 0, 0, 0⟩ (List.replicate 4 smallFrame))[0]? ≠
      (assembleFrames ⟨10, 1, 0, 0, 0, 0⟩ (List.replicate 4 smallFrame))[0 + 1]? :=
  claim_C5 ⟨10, 1, 0, 0, 0, 0⟩ smallFrame 4 0 rfl rfl (by decide) (by decide)
    (by decide) (by decide)

/-- C6: with fade_in = 0 the compositor leaves every frame whose index is at
or past the lead-in frame count and before the fade-out and lead-out windows
unmodified, and blends every frame inside the lead-in window fully to the
white background (opacity 0). -/
theorem claim_C6 (s : ConversionSettings) (images : List Img) (i : ℕ)
    (hfi : s.fade_in_duration = 0) (hfo : 0 ≤ s.fade_out_duration) (hf : 0 ≤ s.fps) :
    (pyInt (s.start_delay * ((s.fps : ℤ) : ℚ)) ≤ (i : ℤ) →
      (i : ℤ) < (images.length : ℤ) - pyInt (s.end_delay * ((s.fps : ℤ) : ℚ)) -
        pyInt (s.fade_out_duration * ((s.fps : ℤ) : ℚ)) →
      (apply_fade_effect images s)[i]? = images[i]?) ∧
    ((i : ℤ) < pyInt (s.start_delay * ((s.fps : ℤ) : ℚ)) →
      (apply_fade_effect images s)[i]? = (images[i]?).map whiteOut) := by
  have hfif : pyInt (s.fade_in_duration * ((s.fps : ℤ) : ℚ)) = 0 := by
    rw [hfi, zero_mul]
    exact pyInt_zero
  constructor
  · intro h1 h2
    have hfof : 0 ≤ pyInt (s.fade_out_duration * ((s.fps : ℤ) : ℚ)) :=
      pyInt_nonneg (mul_nonneg hfo (by exact_mod_cast hf))
    have hop1 : opacityAt s images.length i = 1 := by
      simp only [opacityAt]
      rw [hfif, add_zero, if_neg (not_lt.mpr h1), if_neg (not_lt.mpr h1),
        if_neg (not_le.mpr (by omega : (i : ℤ) < (images.length : ℤ) -
          pyInt (s.end_delay * ((s.fps : ℤ) : ℚ)))),
        if_neg (not_le.mpr h2)]
    rw [apply_fade_effect, mapIdxFrom_getElem?, Nat.zero_add]
    cases himg : images[i]? with
    | none => rfl
    | some img =>
      simp only [Option.map_some']
      rw [fadeFrame, hop1, if_neg (lt_irrefl 1)]
  · intro h1
    have hop0 : opacityAt s images.length i = 0 := by
      simp only [opacityAt]
      rw [if_pos h1]
    rw [apply_fade_effect, mapIdxFrom_getElem?, Nat.zero_add]
    cases himg : images[i]? with
    | none => rfl
    | some img =>
      simp only [Option.map_some']
      rw [fadeFrame_of_opacity_zero hop0]

/-- Witness for claim_C6: a steady-region frame passes through unchanged and
a lead-in frame is blended to white, at concrete settings with fade_in = 0. -/
theorem claim_C6_witness :
    (apply_fade_effect steadyImages steadySettings)[5]? = steadyImages[5]? ∧
    (apply_fade_effect steadyImages steadySettings)[1]? = (steadyImages[1]?).map whiteOut := by
  constructor
  · exact (claim_C6 steadySettings steadyImages 5 rfl (by decide) (by decide)).1
      (by simp [steadySettings, pyInt_two])
      (by simp [steadySettings, steadyImages, pyInt_zero, pyInt_one])
  · exact (claim_C6 steadySettings steadyImages 1 rfl (by decide) (by decide)).2
      (by simp [steadySettings, pyInt_two])

/-- C7: when no duration, no delay and no SMIL timing attribute is detected,
as for empty or malformed markup whose match lists are all empty, the
detector returns exactly (1.0, false); the embedded detector is a total
function, so no exception escapes it. -/
theorem claim_C7 (m : SvgMatches) (h1 : m.cssDurations = []) (h2 : m.cssDelays = [])
    (h3 : m.cssDelaysDecimal = []) (h4 : m.smilDurs = []) :
    detect_animation_info m = (1, false) := by
  obtain ⟨a, b, c, d⟩ := m
  have h1a : a = [] := h1
  have h2a : b = [] := h2
  have h3a : c = [] := h3
  have h4a : d = [] := h4
  subst h1a h2a h3a h4a
  simp [detect_animation_info]

/-- Witness for claim_C7 at the empty match record. -/
theorem claim_C7_witness :
    detect_animation_info ⟨[], [], [], []⟩ = (1, false) :=
  claim_C7 ⟨[], [], [], []⟩ rfl rfl rfl rfl

/-- C8 counterexample: on two markup inputs carrying the staggered-start
motif the detector returns exactly its regex-computed values 2.6 s and
5.2 s (with the fixed default 20 fps), two different values tracking the
input, not any previously tuned constant pair: no motif short-circuit exists
in the code. -/
theorem claim_C8_counterexample :
    calculate_optimal_settings (InputFile.svg motifA) = ((detect_animation_info motifA).1, 20) ∧
    calculate_optimal_settings (InputFile.svg motifB) = ((detect_animation_info motifB).1, 20) ∧
    (detect_animation_info motifA).1 = 13/5 ∧
    (detect_animation_info motifB).1 = 26/5 ∧
    (13/5 : ℚ) ≠ 26/5 := by
  refine ⟨rfl, rfl, ?_, ?_, by norm_num⟩
  · rw [show (13/5 : ℚ) = 2 + 3/5 by norm_num]
    simp only [detect_animation_info, motifA, List.foldl_cons, List.foldl_nil, normUnit,
      Bool.false_eq_true, if_false]
    rw [max_eq_right (by norm_num : (0:ℚ) ≤ 2),
      max_eq_right (by norm_num : (0:ℚ) ≤ 1/5),
      max_eq_right (by norm_num : (1/5:ℚ) ≤ 2/5),
      max_eq_right (by norm_num : (2/5:ℚ) ≤ 3/5),
      if_neg (by norm_num : ¬ (2 + 3/5 : ℚ) = 0)]
  · rw [show (26/5 : ℚ) = 4 + 6/5 by norm_num]
    simp only [detect_animation_info, motifB, List.foldl_cons, List.foldl_nil, normUnit,
      Bool.false_eq_true, if_false]
    rw [max_eq_right (by norm_num : (0:ℚ) ≤ 4),
      max_eq_right (by norm_num : (0:ℚ) ≤ 2/5),
      max_eq_right (by norm_num : (2/5:ℚ) ≤ 4/5),
      max_eq_right (by norm_num : (4/5:ℚ) ≤ 6/5),
      if_neg (by norm_num : ¬ (4 + 6/5 : ℚ) = 0)]

/-- C8 amended: there is no markup-content short-circuit: for every markup
input the regex-computed length is returned with the fixed default 20 fps;
the tuned constant pair (1.65 s, 20 fps) is returned exactly for inputs that
are neither SVG nor GIF, which is also the value of the exception path. -/
theorem claim_C8 (m : SvgMatches) :
    calculate_optimal_settings (InputFile.svg m) = ((detect_animation_info m).1, 20) ∧
    calculate_optimal_settings InputFile.other = (33/20, 20) :=
  ⟨rfl, rfl⟩

theorem closeSession_not_mem_captureEvents (failAt : Option ℕ) :
    ∀ k n, Event.closeSession ∉ captureEvents failAt k n := by
  intro k n
  induction n generalizing k with
  | zero => simp [captureEvents]
  | succ m ih =>
    rw [captureEvents]
    split_ifs with h
    · simp
    · simp only [List.mem_cons]
      push_neg
      exact ⟨by simp, by simp, ih (k + 1)⟩

/-- C9 counterexample: in a ten-frame run whose first capture raises, the
trace is exactly open, set progress 0, report error: the session-close event
never occurs, because driver.quit() sits on the success path with no finally
clause, so the error is surfaced without tearing the session down. -/
theorem claim_C9_counterexample :
    convertRun 10 (some 0) = [Event.openSession, Event.setProgress 0, Event.notifyError] ∧
    Event.closeSession ∉ convertRun 10 (some 0) := by
  constructor
  · rfl
  · decide

/-- C9 amended: the session close happens exactly on runs whose captures all
succeed; any capture failure surfaces the error with the session left open. -/
theorem claim_C9 (fc : ℕ) (failAt : Option ℕ) :
    Event.closeSession ∈ convertRun fc failAt ↔ captureOk failAt 0 fc = true := by
  rw [convertRun]
  constructor
  · intro h
    rcases List.mem_cons.mp h with h1 | h2
    · exact absurd h1 (by simp)
    · rcases List.mem_append.mp h2 with h3 | h4
      · exact absurd h3 (closeSession_not_mem_captureEvents failAt 0 fc)
      · by_contra hok
        rw [if_neg hok] at h4
        simp at h4
  · intro hok
    rw [if_pos hok]
    simp

theorem auto_fps_of_gifTenFastFrames :
    auto_configure_fps (InputFile.gif gifTenFastFrames) = 100 := by
  have h100 : pyInt (100 : ℚ) = 100 :=
    pyInt_eq_of 100 (by norm_num) (by norm_num) (by norm_num)
  have hg : get_gif_info gifTenFastFrames = (1/10, 10, 100) := by
    simp only [get_gif_info, gifTenFastFrames]
    norm_num
  rw [auto_configure_fps]
  simp only [calculate_optimal_settings, hg]
  norm_num [h100]

/-- C10 counterexample: auto-configuring from a GIF whose metadata gives ten
10 ms frames stores a frame rate of 100, far outside [5, 30]: the rate
re-derived from raster metadata is applied with no clamping, so the pipeline
does not keep every used frame rate inside [5, 30]. -/
theorem claim_C10_counterexample :
    auto_configure_fps (InputFile.gif gifTenFastFrames) = 100 ∧
    ¬ (auto_configure_fps (InputFile.gif gifTenFastFrames) ≤ 30) := by
  refine ⟨auto_fps_of_gifTenFastFrames, ?_⟩
  rw [auto_fps_of_gifTenFastFrames]
  norm_num

/-- C10 amended: only the frame rate entered through the fps field is
clamped into [5, 30] (with unparsable input reset to 20); the rate derived
from GIF metadata by auto-configure is stored unclamped and can land far
outside the interval, as the 100 fps example shows. -/
theorem claim_C10 (entry : Option ℤ) :
    (5 ≤ on_fps_changed entry ∧ on_fps_changed entry ≤ 30) ∧
    auto_configure_fps (InputFile.gif gifTenFastFrames) = 100 := by
  refine ⟨?_, auto_fps_of_gifTenFastFrames⟩
  cases entry with
  | none => exact ⟨by norm_num [on_fps_changed], by norm_num [on_fps_changed]⟩
  | some v =>
    rw [on_fps_changed]
    constructor
    · split_ifs <;> omega
    · split_ifs <;> omega

end SvgToGif
